import Mathlib

/-!
Verification development for the Native Call Bridge of `open-dynamic`:
the outbound call dispatcher (`src/utils/scripting/fncaller.rs`) and the
inbound interception pool (`src/utils/runedetour.rs`).

Machine words (`i64`) are modelled as `Int`; the bridge never performs
arithmetic on them, it only moves them across the ABI boundary.

The actual native invocation performed by each `call_xx` shape
(`std::mem::transmute::<_, extern "system" fn(..) -> *const i64>(fn_ptr)(..)`)
is modelled by an oracle `native : Int → List Int → Int` giving the value
the callee returns when invoked at a given address with a given exact
argument list; the embedding additionally records, in `CallOut.invoked`,
which address was invoked with which exact argument words (or `none` when
nothing was called), and whether an error was logged.
-/

/-- Result of one `FNCaller` entry: the returned word, the native invocation
that took place (address and the exact argument words passed, in order), and
whether a non-fatal error was logged.  `crashed` marks the `crash!` branch of
the source's `match`, which is unreachable behind the arity guard. -/
structure CallOut where
  ret : Int
  invoked : Option (Int × List Int)
  logged : Bool
  crashed : Bool := false
  deriving DecidableEq, Repr

/-- Shape `FNCaller::call`: arity-0 call shape. -/
def FNCaller.call (native : Int → List Int → Int) (fn_ptr : Int) : CallOut :=
  { ret := native fn_ptr [], invoked := some (fn_ptr, []), logged := false }

/-- Shape `FNCaller::call_00`: arity-1 call shape. -/
def FNCaller.call_00 (native : Int → List Int → Int) (fn_ptr p0 : Int) : CallOut :=
  { ret := native fn_ptr [p0], invoked := some (fn_ptr, [p0]), logged := false }

/-- Shape `FNCaller::call_01`: arity-2 call shape. -/
def FNCaller.call_01 (native : Int → List Int → Int) (fn_ptr p0 p1 : Int) : CallOut :=
  { ret := native fn_ptr [p0, p1], invoked := some (fn_ptr, [p0, p1]), logged := false }

/-- Shape `FNCaller::call_02`: arity-3 call shape. -/
def FNCaller.call_02 (native : Int → List Int → Int) (fn_ptr p0 p1 p2 : Int) : CallOut :=
  { ret := native fn_ptr [p0, p1, p2], invoked := some (fn_ptr, [p0, p1, p2]), logged := false }

/-- Shape `FNCaller::call_03`: arity-4 call shape. -/
def FNCaller.call_03 (native : Int → List Int → Int) (fn_ptr p0 p1 p2 p3 : Int) : CallOut :=
  { ret := native fn_ptr [p0, p1, p2, p3], invoked := some (fn_ptr, [p0, p1, p2, p3]),
    logged := false }

/-- Shape `FNCaller::call_04`: arity-5 call shape. -/
def FNCaller.call_04 (native : Int → List Int → Int) (fn_ptr p0 p1 p2 p3 p4 : Int) : CallOut :=
  { ret := native fn_ptr [p0, p1, p2, p3, p4], invoked := some (fn_ptr, [p0, p1, p2, p3, p4]),
    logged := false }

/-- Shape `FNCaller::call_05`: arity-6 call shape. -/
def FNCaller.call_05 (native : Int → List Int → Int) (fn_ptr p0 p1 p2 p3 p4 p5 : Int) :
    CallOut :=
  { ret := native fn_ptr [p0, p1, p2, p3, p4, p5],
    invoked := some (fn_ptr, [p0, p1, p2, p3, p4, p5]), logged := false }

/-- Shape `FNCaller::call_06`: arity-7 call shape. -/
def FNCaller.call_06 (native : Int → List Int → Int) (fn_ptr p0 p1 p2 p3 p4 p5 p6 : Int) :
    CallOut :=
  { ret := native fn_ptr [p0, p1, p2, p3, p4, p5, p6],
    invoked := some (fn_ptr, [p0, p1, p2, p3, p4, p5, p6]), logged := false }

/-- Shape `FNCaller::call_07`: arity-8 call shape. -/
def FNCaller.call_07 (native : Int → List Int → Int) (fn_ptr p0 p1 p2 p3 p4 p5 p6 p7 : Int) :
    CallOut :=
  { ret := native fn_ptr [p0, p1, p2, p3, p4, p5, p6, p7],
    invoked := some (fn_ptr, [p0, p1, p2, p3, p4, p5, p6, p7]), logged := false }

/-- Shape `FNCaller::call_08`: arity-9 call shape. -/
def FNCaller.call_08 (native : Int → List Int → Int) (fn_ptr p0 p1 p2 p3 p4 p5 p6 p7 p8 : Int) :
    CallOut :=
  { ret := native fn_ptr [p0, p1, p2, p3, p4, p5, p6, p7, p8],
    invoked := some (fn_ptr, [p0, p1, p2, p3, p4, p5, p6, p7, p8]), logged := false }

/-- Shape `FNCaller::call_09`: arity-10 call shape. -/
def FNCaller.call_09
    (native : Int → List Int → Int) (fn_ptr p0 p1 p2 p3 p4 p5 p6 p7 p8 p9 : Int) : CallOut :=
  { ret := native fn_ptr [p0, p1, p2, p3, p4, p5, p6, p7, p8, p9],
    invoked := some (fn_ptr, [p0, p1, p2, p3, p4, p5, p6, p7, p8, p9]), logged := false }

/-- Dispatcher `FNCaller::call_auto_raw`: rejects more than 10 parameters (two log lines,
returns 0 without calling anything); otherwise selects the call shape matching
`params.len()` and passes `params[0] .. params[k-1]` in order.  The final
branch is the source's `crash!` arm, unreachable behind the arity guard. -/
def FNCaller.call_auto_raw (native : Int → List Int → Int) (fn_ptr : Int) (params : List Int) :
    CallOut :=
  if params.length > 10 then
    { ret := 0, invoked := none, logged := true }
  else
    match params with
    | [] => FNCaller.call native fn_ptr
    | [p0] => FNCaller.call_00 native fn_ptr p0
    | [p0, p1] => FNCaller.call_01 native fn_ptr p0 p1
    | [p0, p1, p2] => FNCaller.call_02 native fn_ptr p0 p1 p2
    | [p0, p1, p2, p3] => FNCaller.call_03 native fn_ptr p0 p1 p2 p3
    | [p0, p1, p2, p3, p4] => FNCaller.call_04 native fn_ptr p0 p1 p2 p3 p4
    | [p0, p1, p2, p3, p4, p5] => FNCaller.call_05 native fn_ptr p0 p1 p2 p3 p4 p5
    | [p0, p1, p2, p3, p4, p5, p6] => FNCaller.call_06 native fn_ptr p0 p1 p2 p3 p4 p5 p6
    | [p0, p1, p2, p3, p4, p5, p6, p7] =>
        FNCaller.call_07 native fn_ptr p0 p1 p2 p3 p4 p5 p6 p7
    | [p0, p1, p2, p3, p4, p5, p6, p7, p8] =>
        FNCaller.call_08 native fn_ptr p0 p1 p2 p3 p4 p5 p6 p7 p8
    | [p0, p1, p2, p3, p4, p5, p6, p7, p8, p9] =>
        FNCaller.call_09 native fn_ptr p0 p1 p2 p3 p4 p5 p6 p7 p8 p9
    | _ => { ret := 0, invoked := none, logged := true, crashed := true }

/-!
Hook Slot Pool (`src/utils/runedetour.rs`).

The Rune runtime's values are opaque to the pool (it only stores and forwards
them), so `ValueWrapper` payloads are modelled as `Int` and the script
callback (`SyncFunction`) as a Lean function from the trampoline pointer, the
captured argument words and the optional parameter to `Except String Int`
(`Err` being a Rune runtime error).

The underlying inline-hooking primitive (the external `retour` crate) and the
outcome of each `try_read`/`try_write` lock acquisition are nondeterministic
from the pool's point of view; each operation therefore takes a `HookEnv`
record of oracle outcomes for exactly the fallible calls the source makes.
Paths on which the source crashes the process (`crash!`, `dynamic_unwrap`,
`unwrap_or_crash`) are modelled by returning `none`.
-/

/-- Script-side callback stored in a slot: receives the original function's
trampoline pointer, the captured argument words, and the optional parameter;
returns the word to hand back to the native caller, or a runtime error. -/
def RuneCallback : Type := Int → List Int → Option Int → Except String Int

/-- Handle produced by `RawDetour::new` + `enable`: remembers the redirected
(`fromAddr`) and holder (`toAddr`) addresses, whether the redirection is
enabled, and the trampoline address exposing the original behavior. -/
structure RawDetourH where
  fromAddr : Int
  toAddr : Int
  enabled : Bool
  trampoline : Int
  deriving DecidableEq, Repr

/-- One interception slot (`struct RDetour`): its fixed id plus the four
optional fields of the Rust struct.  Rust's `#[derive(Default)]` is mirrored
by the field defaults. -/
structure RDetour where
  detour_id : Nat := 0
  from_ptr : Option Int := none
  detour : Option RawDetourH := none
  rune_function : Option RuneCallback := none
  opt_param : Option Int := none

/-- The global `RUNE_DETOURS` vector. -/
abbrev Registry : Type := List RDetour

/-- Predicate `RDetour::is_detour_acquired`: the slot counts as taken when either
`from_ptr` or `detour` is present. -/
def RDetour.is_detour_acquired (s : RDetour) : Bool :=
  s.from_ptr.isSome || s.detour.isSome

/-- Oracle outcomes for the fallible external calls one pool operation makes.
`newOk`/`enable1Ok` cover `RawDetour::new` and the `enable` inside
`create_hook` (both crash the process on failure via `dynamic_unwrap`);
`enable2Ok` is the second `enable` in `install_detour`; `disableOk` the
`disable` in `drop_rdetour_at`; `intoSyncOk` the `Function::into_sync`
conversion; `regReadOk`/`slotWriteOk` the `try_read`/`try_write` lock
acquisitions on the registry and the chosen slot; `trampolineOf` gives the
trampoline address the primitive mints for a hooked address. -/
structure HookEnv where
  intoSyncOk : Bool := true
  regReadOk : Bool := true
  slotWriteOk : Bool := true
  newOk : Bool := true
  enable1Ok : Bool := true
  enable2Ok : Bool := true
  disableOk : Bool := true
  trampolineOf : Int → Int := fun _ => 0

/-- Mapping `RDetour::determine_detour_holder`: maps ids 0–9 to the address of the
matching `detour_holder_xx` function (holder addresses are modelled as the
id itself); any other id hits the `crash!` arm (`none`). -/
def RDetour.determine_detour_holder (s : RDetour) : Option Int :=
  if s.detour_id < 10 then some (Int.ofNat s.detour_id) else none

/-- Primitive wrapper `RDetour::create_hook`: `RawDetour::new(from, to)` followed by a first
`enable`, both unwrapped with `dynamic_unwrap` — failure of either crashes the
process (`none`).  On success the handle is enabled. -/
def RDetour.create_hook (env : HookEnv) (fromp toPtr : Int) : Option RawDetourH :=
  if env.newOk && env.enable1Ok then
    some { fromAddr := fromp, toAddr := toPtr, enabled := true,
           trampoline := env.trampolineOf fromp }
  else
    none

/-- Operation `RDetour::install_detour` on one slot.  Source order: bail out (with a
log) when the slot is already acquired; resolve the holder address (`crash!`
on an unreserved id); record `rune_function`, `from_ptr`, `opt_param`;
`create_hook` (process crash on failure); second `enable` — on its failure
log and return early, leaving the recorded fields in place and `detour`
unset; otherwise store the handle. -/
def RDetour.install_detour (env : HookEnv) (s : RDetour) (fromp : Int) (cb : RuneCallback)
    (opt : Option Int) : Option RDetour :=
  if s.is_detour_acquired then
    some s
  else
    match s.determine_detour_holder with
    | none => none
    | some to_ptr =>
      let s := { s with rune_function := some cb, from_ptr := some fromp, opt_param := opt }
      match RDetour.create_hook env fromp to_ptr with
      | none => none
      | some hook =>
        if env.enable2Ok then some { s with detour := some hook } else some s

/-- Scan of `RDetour::find_free_detour`: the index of the first slot that is not
acquired. -/
def RDetour.find_free_idx (reg : Registry) : Option Nat :=
  List.findIdx? (fun s => !s.is_detour_acquired) reg

/-- Result of `RDetour::install_detour_auto`.  The Rust function's return
type is `()`: `script_ret` records the value handed back to the script, which
carries no information.  `logged_busy` records the
`"[ERROR] All RDetours are busy!"` log line. -/
structure AutoOut where
  reg : Registry
  script_ret : Unit := ()
  logged_busy : Bool := false

/-- Operation `RDetour::install_detour_auto`: convert the callback (`into_sync`, log
and return on failure); `find_free_detour` (a failed registry `try_read` or
an exhausted scan both end in the busy log and an early return);
`try_write` the found slot with `unwrap_or_crash` (process crash when
locked); then `install_detour` on it. -/
def RDetour.install_detour_auto (env : HookEnv) (reg : Registry) (fromp : Int)
    (cb : RuneCallback) (opt : Option Int) : Option AutoOut :=
  if !env.intoSyncOk then
    some { reg := reg }
  else if !env.regReadOk then
    some { reg := reg, logged_busy := true }
  else
    match RDetour.find_free_idx reg with
    | none => some { reg := reg, logged_busy := true }
    | some i =>
      match reg[i]? with
      | none => some { reg := reg, logged_busy := true }
      | some s =>
        if !env.slotWriteOk then
          none
        else
          (RDetour.install_detour env s fromp cb opt).map fun s2 =>
            { reg := reg.set i s2 }

/-- Observable outcome of `RDetour::call_rune_function_on_id`: the word
returned to native code, whether the script callback was invoked, and whether
an error line was logged. -/
structure DispatchOut where
  ret : Int
  invoked : Bool
  logged : Bool
  deriving DecidableEq, Repr

/-- Dispatch `RDetour::call_rune_function_on_id`.  Source order: `try_read`
the registry (log + 0 on failure); scan for the slot with this id (silent 0
when absent); `try_read` that slot (log + 0 on failure); silent 0 when no
callback is registered; log + 0 when the callback is present but the
`RawDetour` handle is missing; otherwise call the callback with the
trampoline, the captured words and the optional parameter — its `Ok` value is
returned verbatim, an `Err` is logged and turned into 0. -/
def RDetour.call_rune_function_on_id (regLockOk slotLockOk : Bool) (reg : Registry)
    (detour_id : Nat) (args : List Int) : DispatchOut :=
  if !regLockOk then
    { ret := 0, invoked := false, logged := true }
  else
    match reg.find? (fun s => s.detour_id == detour_id) with
    | none => { ret := 0, invoked := false, logged := false }
    | some s =>
      if !slotLockOk then
        { ret := 0, invoked := false, logged := true }
      else
        match s.rune_function with
        | none => { ret := 0, invoked := false, logged := false }
        | some cb =>
          match s.detour with
          | none => { ret := 0, invoked := false, logged := true }
          | some d =>
            match cb d.trampoline args s.opt_param with
            | .ok v => { ret := v, invoked := true, logged := false }
            | .error _ => { ret := 0, invoked := true, logged := true }

/-- Operation `RDetour::drop_rdetour_at`.  Source order: `try_read` the registry (log +
`false` on failure); scan for the first slot whose
`get_from_address().unwrap_or_default()` equals the address (so a free slot
matches address 0); `false` when none; `try_write` that slot (log + `false`
on failure); `detour.take()` — when it yields nothing, log + `false` (the
`take` of `None` leaves the slot as it was); when the taken detour is enabled
and `disable` fails, log + `false` with the handle already taken out of the
slot (and dropped); otherwise clear `from_ptr`, take `rune_function`, drop
the handle and return `true`.  `opt_param` is never touched. -/
def RDetour.drop_rdetour_at (env : HookEnv) (reg : Registry) (address : Int) :
    Registry × Bool :=
  if !env.regReadOk then
    (reg, false)
  else
    match List.findIdx? (fun s => s.from_ptr.getD 0 == address) reg with
    | none => (reg, false)
    | some i =>
      match reg[i]? with
      | none => (reg, false)
      | some s =>
        if !env.slotWriteOk then
          (reg, false)
        else
          match s.detour with
          | none => (reg, false)
          | some d =>
            if d.enabled && !env.disableOk then
              (reg.set i { s with detour := none }, false)
            else
              (reg.set i { s with detour := none, from_ptr := none, rune_function := none },
               true)

/-- Argument capture of `generate_detour_id!`: the source loop
`for _ in 0..capacity { collected_args.push(args.arg()) }` pushing one raw
word per iteration; `cursor` is the position of the variadic `arg()` reader
in the incoming raw argument list `raw`. -/
def collect_go (raw : Nat → Int) (cursor : Nat) : Nat → List Int → List Int
  | 0, acc => acc
  | n + 1, acc => collect_go raw (cursor + 1) n (acc ++ [raw cursor])

/-- A `detour_holder_xx` entry point (`generate_detour_holder!`): captures
`collectCount` (= `COLLECT_PARAMS_COUNT`) words from the incoming raw
argument list, then returns the result of
`call_rune_function_on_id(slot_id, collected_args)`. -/
def detour_holder (regLockOk slotLockOk : Bool) (collectCount : Nat) (slot_id : Nat)
    (reg : Registry) (raw : Nat → Int) : Int :=
  (RDetour.call_rune_function_on_id regLockOk slotLockOk reg slot_id
    (collect_go raw 0 collectCount [])).ret

/-- Whether the slot scan inside `call_rune_function_on_id` blocks: the scan
acquires each visited slot's lock with a plain (waiting) `read()`, so it
waits as soon as a visited slot's lock is write-held (`busy`); slots after
the first id match are not visited. -/
def scan_waits (busy : Nat → Bool) : Registry → Nat → Bool
  | [], _ => false
  | s :: rest, detour_id =>
    busy s.detour_id || (if s.detour_id == detour_id then false else scan_waits busy rest detour_id)

/-- Whether one `call_rune_function_on_id` invocation waits on a lock:
the registry lock and the matched slot's lock are only try-acquired (never
waited on), but the id scan read-blocks on each visited slot. -/
def call_rune_waits (regLockOk : Bool) (busy : Nat → Bool) (reg : Registry)
    (detour_id : Nat) : Bool :=
  regLockOk && scan_waits busy reg detour_id

/-- A slot honouring the spec's pairing invariant: `from_ptr` and `detour`
present or absent together. -/
def slotWF (s : RDetour) : Prop :=
  s.from_ptr.isSome = s.detour.isSome

instance (s : RDetour) : Decidable (slotWF s) := by
  unfold slotWF
  infer_instance

/-! Concrete fixtures used by witnesses and counterexamples. -/

/-- A trivial callback returning 0. -/
def cb0 : RuneCallback := fun _ _ _ => Except.ok 0

/-- A callback summing the trampoline pointer and the captured words. -/
def cbSum : RuneCallback := fun tramp args _ => Except.ok (tramp + args.sum)

/-- A callback that always reports a runtime error. -/
def cbErr : RuneCallback := fun _ _ _ => Except.error "boom"

/-- All-success oracle (every lock acquisition and primitive call succeeds). -/
def envOk : HookEnv := {}

/-- Oracle where only the second `enable` (inside `install_detour`) fails. -/
def envEnableFail : HookEnv := { enable2Ok := false }

/-- Oracle where `RawDetour::new` fails (the source crashes there). -/
def envNewFail : HookEnv := { newOk := false }

/-- Oracle where only `disable` (inside `drop_rdetour_at`) fails. -/
def envDisableFail : HookEnv := { disableOk := false }

/-- A freshly registered, free slot with the given id. -/
def mkFree (i : Nat) : RDetour := { detour_id := i }

/-- An installed slot: id `i`, hooked address `a`, callback `cb`, optional
parameter `op`, with an enabled handle whose trampoline is `tr`. -/
def mkInstalled (i : Nat) (a : Int) (cb : RuneCallback) (op : Option Int) (tr : Int) :
    RDetour :=
  { detour_id := i, from_ptr := some a,
    detour := some { fromAddr := a, toAddr := Int.ofNat i, enabled := true, trampoline := tr },
    rune_function := some cb, opt_param := op }

/-- C6: for every argument list of length at most 10, `call_auto_raw` selects
the call shape of that exact arity and invokes `fn_ptr` with exactly the
given words in their original order, forwarding the callee's return value
unchanged (so a callee that sums its arguments makes `call_auto_raw` return
that sum), with nothing logged. -/
theorem c6_call_auto_raw_dispatches_exact_args (native : Int → List Int → Int) (fn_ptr : Int)
    (params : List Int) (h : params.length ≤ 10) :
    FNCaller.call_auto_raw native fn_ptr params =
      { ret := native fn_ptr params, invoked := some (fn_ptr, params), logged := false } := by
  rcases params with _ | ⟨a0, _ | ⟨a1, _ | ⟨a2, _ | ⟨a3, _ | ⟨a4, _ | ⟨a5, _ | ⟨a6, _ |
    ⟨a7, _ | ⟨a8, _ | ⟨a9, rest⟩⟩⟩⟩⟩⟩⟩⟩⟩⟩
  · rfl
  · rfl
  · rfl
  · rfl
  · rfl
  · rfl
  · rfl
  · rfl
  · rfl
  · rfl
  · rcases rest with _ | ⟨a10, rest⟩
    · rfl
    · simp only [List.length_cons] at h
      omega

/-- Witness for C6: a callee summing its three arguments yields the sum 6. -/
theorem c6_witness_sum_of_three :
    FNCaller.call_auto_raw (fun _ args => args.sum) 42 [1, 2, 3] =
      { ret := 6, invoked := some (42, [1, 2, 3]), logged := false } :=
  (c6_call_auto_raw_dispatches_exact_args (fun _ args => args.sum) 42 [1, 2, 3]
    (by decide)).trans (by decide)

/-- C7: for every argument list longer than 10, `call_auto_raw` returns 0,
logs a non-fatal error, and performs no native invocation. -/
theorem c7_call_auto_raw_rejects_over_ten (native : Int → List Int → Int) (fn_ptr : Int)
    (params : List Int) (h : params.length > 10) :
    FNCaller.call_auto_raw native fn_ptr params =
      { ret := 0, invoked := none, logged := true } := by
  unfold FNCaller.call_auto_raw
  rw [if_pos h]

/-- Witness for C7: eleven arguments are rejected without a call. -/
theorem c7_witness_eleven_args :
    FNCaller.call_auto_raw (fun _ args => args.sum) 42 [1, 1, 1, 1, 1, 1, 1, 1, 1, 1, 1] =
      { ret := 0, invoked := none, logged := true } :=
  c7_call_auto_raw_rejects_over_ten (fun _ args => args.sum) 42
    [1, 1, 1, 1, 1, 1, 1, 1, 1, 1, 1] (by decide)

/-- Counterexample to C1: removing an installed hook while the primitive's
`disable` fails leaves the slot with `from_ptr` present but `detour` absent
(the handle was `take`n before the disable check), so the two fields are
observably present/absent independently, contradicting the claimed pairing. -/
theorem c1_counterexample_half_installed_state :
    (RDetour.drop_rdetour_at envDisableFail [mkInstalled 0 5 cb0 (some 7) 77] 5).2 = false ∧
    ((RDetour.drop_rdetour_at envDisableFail [mkInstalled 0 5 cb0 (some 7) 77] 5).1.map
      fun s => (s.is_detour_acquired, s.from_ptr.isSome, s.detour.isSome)) =
      [(true, true, false)] := by
  decide

/-- C1 (amended): the pairing of `target_address` and `interception_handle`
holds after `install_detour` whenever the final `enable` succeeds, and after
`drop_rdetour_at` whenever `disable` succeeds; the failure paths of those two
primitive calls are exactly where a half-installed slot escapes.  (Dispatch
never writes a slot, so it preserves the pairing trivially.) -/
theorem c1_pairing_invariant_preserved :
    (∀ (env : HookEnv) (s : RDetour) (fromp : Int) (cb : RuneCallback) (opt : Option Int)
      (s2 : RDetour), env.enable2Ok = true → slotWF s →
      RDetour.install_detour env s fromp cb opt = some s2 → slotWF s2) ∧
    (∀ (env : HookEnv) (reg : Registry) (address : Int), env.disableOk = true →
      (∀ s ∈ reg, slotWF s) →
      ∀ s2 ∈ (RDetour.drop_rdetour_at env reg address).1, slotWF s2) := by
  constructor
  · intro env s fromp cb opt s2 hE hwf hinst
    unfold RDetour.install_detour at hinst
    split at hinst
    · cases hinst
      exact hwf
    · split at hinst
      · exact absurd hinst (by simp)
      · split at hinst
        · exact absurd hinst (by simp)
        · cases hinst
          simp [slotWF]
  · intro env reg address hD hwf s2 hs2
    unfold RDetour.drop_rdetour_at at hs2
    split at hs2
    · exact hwf s2 hs2
    · split at hs2
      · exact hwf s2 hs2
      · split at hs2
        · exact hwf s2 hs2
        · split at hs2
          · exact hwf s2 hs2
          · split at hs2
            · exact hwf s2 hs2
            · split at hs2
              · rename_i hcond
                rw [hD] at hcond
                simp at hcond
              · rcases List.mem_or_eq_of_mem_set hs2 with hmem | heq
                · exact hwf s2 hmem
                · subst heq
                  simp [slotWF]

/-- Witness for C1: a successful install on a free slot lands in a state with
both fields present. -/
theorem c1_witness_successful_install :
    slotWF { detour_id := 0, from_ptr := some 5,
             detour := some { fromAddr := 5, toAddr := 0, enabled := true, trampoline := 0 },
             rune_function := some cb0, opt_param := none } :=
  c1_pairing_invariant_preserved.1 envOk (mkFree 0) 5 cb0 none _ rfl (by decide) rfl

/-- Counterexample to C2: installing on the free slot 0 while the final
`enable` fails leaves `from_ptr = some 5`, `opt_param = some 7` and the
callback recorded, with no handle — the slot is acquired, nothing was rolled
back and the slot did not return to Free (and `install_detour` has no boolean
result to be `false`). -/
theorem c2_counterexample_no_rollback :
    (RDetour.install_detour envEnableFail (mkFree 0) 5 cb0 (some 7)).map
      (fun s => (s.from_ptr, s.opt_param, s.rune_function.isSome, s.detour.isSome,
                 s.is_detour_acquired)) =
      some (some 5, some 7, true, false, true) := by
  decide

/-- C2 (amended): there is no rollback.  When `RawDetour::new` or the first
`enable` fails, the process crashes (`dynamic_unwrap`); when only the final
`enable` fails, `install_detour` logs and returns (it returns no boolean),
leaving the callback, `opt_param` and `target_address` recorded on the slot
and the interception handle absent. -/
theorem c2_install_failure_behavior (env : HookEnv) (s : RDetour) (fromp : Int)
    (cb : RuneCallback) (opt : Option Int)
    (hfree : s.is_detour_acquired = false) (hid : s.detour_id < 10) :
    (env.newOk = true → env.enable1Ok = true → env.enable2Ok = false →
      RDetour.install_detour env s fromp cb opt =
        some { s with rune_function := some cb, from_ptr := some fromp, opt_param := opt }) ∧
    ((env.newOk && env.enable1Ok) = false →
      RDetour.install_detour env s fromp cb opt = none) := by
  constructor
  · intro hN hE1 hE2
    unfold RDetour.install_detour RDetour.determine_detour_holder RDetour.create_hook
    simp [hfree, hid, hN, hE1, hE2]
  · intro hNE
    unfold RDetour.install_detour RDetour.determine_detour_holder RDetour.create_hook
    simp [hfree, hid, hNE]

/-- Witness for C2: the concrete no-rollback state after a failing final
`enable` on free slot 0. -/
theorem c2_witness_enable_failure :
    RDetour.install_detour envEnableFail (mkFree 0) 5 cb0 (some 7) =
      some { detour_id := 0, from_ptr := some 5, detour := none,
             rune_function := some cb0, opt_param := some 7 } :=
  (c2_install_failure_behavior envEnableFail (mkFree 0) 5 cb0 (some 7) rfl
    (by decide)).1 rfl rfl rfl

/-- Counterexample to C3: a successful `drop_rdetour_at` on the slot
installed at address 5 reports `true` but leaves `opt_param = some 7` on the
freed slot, contradicting "clears all three recorded fields". -/
theorem c3_counterexample_opt_param_survives :
    (RDetour.drop_rdetour_at envOk [mkInstalled 0 5 cb0 (some 7) 77] 5).2 = true ∧
    ((RDetour.drop_rdetour_at envOk [mkInstalled 0 5 cb0 (some 7) 77] 5).1.map
      fun s => s.opt_param) = [some 7] := by
  decide

/-- C3 (amended): a successful remove clears `callback` and `target_address`,
drops the interception handle and returns `true`, leaving the slot free; but
`opt_param` is left in place.  (The stale `opt_param` still never reaches the
slot's next installation, because `install_detour` overwrites it
unconditionally — see the conclusion of `c2_install_failure_behavior` and of
`c4_hook_function_behavior`, whose installed slot carries exactly the new
`opt`.) -/
theorem c3_remove_clears_all_but_opt_param (env : HookEnv) (i : Nat) (a tr : Int)
    (cb : RuneCallback) (op : Option Int) (en : Bool)
    (hr : env.regReadOk = true) (hw : env.slotWriteOk = true) (hd : env.disableOk = true) :
    RDetour.drop_rdetour_at env
        [{ detour_id := i, from_ptr := some a,
           detour := some { fromAddr := a, toAddr := Int.ofNat i, enabled := en,
                            trampoline := tr },
           rune_function := some cb, opt_param := op }] a =
      ([{ detour_id := i, from_ptr := none, detour := none, rune_function := none,
          opt_param := op }], true) := by
  unfold RDetour.drop_rdetour_at
  simp [hr, hw, hd, List.findIdx?_cons]

/-- Witness for C3: the concrete cleared-but-for-`opt_param` slot. -/
theorem c3_witness_successful_remove :
    RDetour.drop_rdetour_at envOk
        [{ detour_id := 0, from_ptr := some 5,
           detour := some { fromAddr := 5, toAddr := Int.ofNat 0, enabled := true,
                            trampoline := 77 },
           rune_function := some cb0, opt_param := some 7 }] 5 =
      ([{ detour_id := 0, from_ptr := none, detour := none, rune_function := none,
          opt_param := some 7 }], true) :=
  c3_remove_clears_all_but_opt_param envOk 0 5 77 cb0 (some 7) true rfl rfl rfl

/-- Counterexample to C4: `install_detour_auto` (the `hook_function` binding)
returns `()` — not a boolean.  On a registry whose only slot is taken it logs
the busy error, and on a registry with a free slot it installs, yet the value
handed back to the script is identical in both cases, so the claimed
`false`/`true` results do not exist. -/
theorem c4_counterexample_no_boolean_result :
    (RDetour.install_detour_auto envOk [mkInstalled 0 5 cb0 none 0] 9 cb0 none).map
      AutoOut.logged_busy = some true ∧
    (RDetour.install_detour_auto envOk [mkFree 0] 9 cb0 none).map AutoOut.logged_busy =
      some false ∧
    (RDetour.install_detour_auto envOk [mkInstalled 0 5 cb0 none 0] 9 cb0 none).map
      AutoOut.script_ret =
      (RDetour.install_detour_auto envOk [mkFree 0] 9 cb0 none).map AutoOut.script_ret := by
  refine ⟨rfl, rfl, rfl⟩

/-- C4 (amended): `hook_function` returns no value.  When every slot is
acquired it logs the busy error and leaves the registry unchanged, without
waiting for a slot (the scan is a single try-read pass); when the scan finds
a free slot and the primitive calls succeed, that slot is claimed and
installed, with no success value reported back. -/
theorem c4_hook_function_behavior (env : HookEnv) (reg : Registry) (fromp : Int)
    (cb : RuneCallback) (opt : Option Int)
    (hs : env.intoSyncOk = true) (hr : env.regReadOk = true) :
    ((∀ s ∈ reg, s.is_detour_acquired = true) →
      RDetour.install_detour_auto env reg fromp cb opt =
        some { reg := reg, logged_busy := true }) ∧
    (∀ i s, RDetour.find_free_idx reg = some i → reg[i]? = some s →
      s.is_detour_acquired = false → s.detour_id < 10 →
      env.slotWriteOk = true → env.newOk = true → env.enable1Ok = true →
      env.enable2Ok = true →
      RDetour.install_detour_auto env reg fromp cb opt =
        some { reg := reg.set i
                 { s with rune_function := some cb, from_ptr := some fromp, opt_param := opt,
                          detour := some { fromAddr := fromp,
                                           toAddr := Int.ofNat s.detour_id,
                                           enabled := true,
                                           trampoline := env.trampolineOf fromp } },
               logged_busy := false }) := by
  constructor
  · intro hall
    have hnone : RDetour.find_free_idx reg = none := by
      unfold RDetour.find_free_idx
      rw [List.findIdx?_eq_none_iff]
      intro x hx
      simp [hall x hx]
    unfold RDetour.install_detour_auto
    simp [hs, hr, hnone]
  · intro i s hi hgs hfree hid hw hN hE1 hE2
    unfold RDetour.install_detour_auto
    unfold RDetour.install_detour RDetour.determine_detour_holder RDetour.create_hook
    simp [hs, hr, hi, hgs, hw, hfree, hid, hN, hE1, hE2]

/-- Witness for C4: a successful claim-and-install on a one-slot registry. -/
theorem c4_witness_install_success :
    RDetour.install_detour_auto envOk [mkFree 0] 9 cb0 none =
      some { reg := [mkFree 0].set 0
               { mkFree 0 with rune_function := some cb0, from_ptr := some 9,
                               opt_param := none,
                               detour := some { fromAddr := 9,
                                                toAddr := Int.ofNat (mkFree 0).detour_id,
                                                enabled := true,
                                                trampoline := envOk.trampolineOf 9 } },
             logged_busy := false } :=
  (c4_hook_function_behavior envOk [mkFree 0] 9 cb0 none rfl rfl).2 0 (mkFree 0)
    rfl rfl rfl (by decide) rfl rfl rfl rfl

/-- Counterexample to C5: the registry never checks `target_address` for
duplicates.  Starting from two free slots, installing twice at address 5
(with a primitive that accepts both) leaves two acquired slots, both with a
live handle and both with `from_ptr = some 5`. -/
theorem c5_counterexample_duplicate_target :
    ((RDetour.install_detour_auto envOk [mkFree 0, mkFree 1] 5 cb0 none).bind fun o1 =>
      (RDetour.install_detour_auto envOk o1.reg 5 cb0 none).map fun o2 =>
        o2.reg.map fun s => (s.is_detour_acquired, s.detour.isSome, s.from_ptr)) =
      some [(true, true, some 5), (true, true, some 5)] := by
  decide

/-- C5 (amended): a second install on an already-hooked `target_address`
is not rejected by the registry: it claims the next free slot.  If the
underlying primitive accepts the second hook, two Installed slots share the
`target_address`; if the primitive rejects it (`RawDetour::new` fails), the
process crashes (`dynamic_unwrap`) instead of returning `false`. -/
theorem c5_double_install_not_rejected (a : Int) (cb1 cb2 : RuneCallback)
    (op1 op2 : Option Int) :
    ((RDetour.install_detour_auto envOk [mkFree 0, mkFree 1] a cb1 op1).bind fun o1 =>
      (RDetour.install_detour_auto envOk o1.reg a cb2 op2).map fun o2 =>
        o2.reg.map fun s => (s.is_detour_acquired, s.detour.isSome, s.from_ptr)) =
      some [(true, true, some a), (true, true, some a)] ∧
    ((RDetour.install_detour_auto envOk [mkFree 0, mkFree 1] a cb1 op1).bind fun o1 =>
      RDetour.install_detour_auto envNewFail o1.reg a cb2 op2) = none := by
  exact ⟨rfl, rfl⟩

/-- C8: with both lock try-acquisitions succeeding, dispatch returns 0
silently (nothing logged) when no slot carries the id or the slot has no
registered callback; when the slot is installed, a callback error is logged
and turned into 0, and a callback success is returned verbatim. -/
theorem c8_dispatch_policy (reg : Registry) (detour_id : Nat) (args : List Int) :
    (reg.find? (fun s => s.detour_id == detour_id) = none →
      RDetour.call_rune_function_on_id true true reg detour_id args =
        { ret := 0, invoked := false, logged := false }) ∧
    (∀ s, reg.find? (fun s => s.detour_id == detour_id) = some s →
      (s.rune_function = none →
        RDetour.call_rune_function_on_id true true reg detour_id args =
          { ret := 0, invoked := false, logged := false }) ∧
      (∀ cb d, s.rune_function = some cb → s.detour = some d →
        RDetour.call_rune_function_on_id true true reg detour_id args =
          match cb d.trampoline args s.opt_param with
          | Except.ok v => { ret := v, invoked := true, logged := false }
          | Except.error _ => { ret := 0, invoked := true, logged := true })) := by
  constructor
  · intro hnone
    unfold RDetour.call_rune_function_on_id
    simp [hnone]
  · intro s hfind
    constructor
    · intro hrf
      unfold RDetour.call_rune_function_on_id
      simp [hfind, hrf]
    · intro cb d hcb hd
      unfold RDetour.call_rune_function_on_id
      simp [hfind, hcb, hd]

/-- Witness for C8: a summing callback's result is returned verbatim. -/
theorem c8_witness_callback_result :
    RDetour.call_rune_function_on_id true true [mkInstalled 0 5 cbSum (some 3) 77] 0 [1, 2] =
      { ret := 80, invoked := true, logged := false } :=
  (((c8_dispatch_policy [mkInstalled 0 5 cbSum (some 3) 77] 0 [1, 2]).2
    (mkInstalled 0 5 cbSum (some 3) 77) rfl).2 cbSum
    { fromAddr := 5, toAddr := 0, enabled := true, trampoline := 77 } rfl rfl).trans
    (by decide)

/-- Unrolling the capture loop of `generate_detour_id!`: starting the
variadic reader at `cursor`, it appends the next `n` raw words in order. -/
theorem collect_go_eq (raw : Nat → Int) :
    ∀ (n cursor : Nat) (acc : List Int),
      collect_go raw cursor n acc =
        acc ++ (List.range n).map (fun i => raw (cursor + i)) := by
  intro n
  induction n with
  | zero =>
    intro cursor acc
    simp [collect_go]
  | succ m ih =>
    intro cursor acc
    rw [collect_go, ih, List.range_succ_eq_map]
    have harg : (fun i => raw (cursor + 1 + i)) = fun i => raw (cursor + Nat.succ i) := by
      funext i
      congr 1
      omega
    simp [List.map_map, Function.comp_def, harg]

/-- C9: a holder entry point captures exactly `collectCount` words from the
incoming raw argument list — neither more nor fewer, whatever the hooked
function's real arity — in the order the native call supplied them, then
returns the result of dispatching them on its own fixed slot id. -/
theorem c9_holder_captures_and_dispatches (regLockOk slotLockOk : Bool) (collectCount : Nat)
    (raw : Nat → Int) (reg : Registry) (slot_id : Nat) :
    (collect_go raw 0 collectCount []).length = collectCount ∧
    (∀ i, i < collectCount → (collect_go raw 0 collectCount [])[i]? = some (raw i)) ∧
    detour_holder regLockOk slotLockOk collectCount slot_id reg raw =
      (RDetour.call_rune_function_on_id regLockOk slotLockOk reg slot_id
        (collect_go raw 0 collectCount [])).ret := by
  refine ⟨?_, ?_, rfl⟩
  · rw [collect_go_eq]
    simp
  · intro i hi
    rw [collect_go_eq]
    simp [List.getElem?_map, List.getElem?_range, hi]

/-- Witness for C9: three words captured in order and dispatched. -/
theorem c9_witness_three_words :
    (collect_go (fun i => Int.ofNat i + 100) 0 3 []).length = 3 ∧
    (collect_go (fun i => Int.ofNat i + 100) 0 3 [])[1]? = some 101 ∧
    detour_holder true true 3 0 [] (fun i => Int.ofNat i + 100) =
      (RDetour.call_rune_function_on_id true true [] 0
        (collect_go (fun i => Int.ofNat i + 100) 0 3 [])).ret := by
  have h := c9_holder_captures_and_dispatches true true 3 (fun i => Int.ofNat i + 100) [] 0
  exact ⟨h.1, (h.2.1 1 (by decide)).trans (by decide), h.2.2⟩

/-- Counterexample to C10: dispatch can wait on a lock.  The id scan inside
`call_rune_function_on_id` acquires each visited slot's lock with a plain
blocking `read()`; here slot 0's lock is write-held while slot 1 is
dispatched, and the scan waits on it. -/
theorem c10_counterexample_scan_blocks :
    call_rune_waits true (fun i => i == 0) [mkFree 0, mkInstalled 1 5 cb0 none 0] 1 =
      true := by
  decide

/-- C10 (amended): dispatch try-acquires the registry lock and the matched
slot's lock, and when either try fails it returns 0 with a log line and
without invoking the callback — even when the slot is installed; but the id
scan read-blocks on each visited slot's lock, so dispatch only avoids
waiting when no visited slot's lock is write-held. -/
theorem c10_dispatch_try_lock_failures (reg : Registry) (detour_id : Nat) (args : List Int) :
    (∀ slotLockOk, RDetour.call_rune_function_on_id false slotLockOk reg detour_id args =
      { ret := 0, invoked := false, logged := true }) ∧
    (∀ s, reg.find? (fun s => s.detour_id == detour_id) = some s →
      RDetour.call_rune_function_on_id true false reg detour_id args =
        { ret := 0, invoked := false, logged := true }) ∧
    (∀ busy : Nat → Bool, (∀ i, busy i = false) →
      call_rune_waits true busy reg detour_id = false) := by
  refine ⟨?_, ?_, ?_⟩
  · intro slotLockOk
    rfl
  · intro s hfind
    unfold RDetour.call_rune_function_on_id
    simp [hfind]
  · intro busy hbusy
    unfold call_rune_waits
    induction reg with
    | nil => rfl
    | cons s rest ih =>
      simp only [scan_waits, hbusy, Bool.false_or, Bool.true_and] at ih ⊢
      split
      · rfl
      · exact ih

/-- Witness for C10: a failed slot-lock try on an installed slot yields 0
without invoking the callback. -/
theorem c10_witness_slot_lock_failure :
    RDetour.call_rune_function_on_id true false [mkInstalled 0 5 cb0 none 0] 0 [1] =
      { ret := 0, invoked := false, logged := true } :=
  (c10_dispatch_try_lock_failures [mkInstalled 0 5 cb0 none 0] 0 [1]).2.1
    (mkInstalled 0 5 cb0 none 0) rfl

